import Mathlib

/-! # Webserver/cmd/main.go

A verification development for the bootstrap of the gateway process: the
order in which `main` calls its collaborators, what it hands to each of them,
how the process ends, the two closures `main` defines inline (the access-log
formatter and the security-header middleware), and the handler chain a
request runs through.

`main` is embedded as a program in a small monad `Go` that records every call
made to a collaborator, keeps the stack of deferred calls, and can stop the
process (`os.Exit`).  The results of the collaborators are supplied by a
`World`.
-/

namespace Webserver

/-! ## Values handled by `main` -/

/-- A Go `error` value, identified by its message. -/
structure GoError where
  msg : String
  deriving DecidableEq, Repr

/-- The value returned by `config.LoadConfig`.  `main` reads the two address
fields; `others` stands for every other setting the file may hold. -/
structure Config where
  GRPCServerAddress : String
  ServerAddress : String
  others : List (String × String)
  deriving DecidableEq, Repr

/-- A generated RPC service client, identified by a number. -/
structure ServiceClient where
  id : Nat
  deriving DecidableEq, Repr

/-- The connection handle returned by `grpc.NewClient`: `conn` identifies the
handle, the other two fields are the ones `main` reads. -/
structure Client where
  conn : Nat
  FnoPositionServiceClient : ServiceClient
  OrderDetailsServiceClient : ServiceClient
  deriving DecidableEq, Repr

/-- The value `grpc.NewGrpcAdapter` returns, identified by the arguments of the
call that built it. -/
inductive GrpcAdapter where
  | NewGrpcAdapter (first second : ServiceClient)
  deriving DecidableEq, Repr

/-- The value `handlers.NewFacade` returns, identified by the argument of the
call that built it. -/
inductive Facade where
  | NewFacade (adapter : GrpcAdapter)
  deriving DecidableEq, Repr

/-- The logger entry `utils.Logger.WithFields(fields)`. -/
structure Logger where
  fields : List (String × String)
  deriving DecidableEq, Repr

/-- The `cors.Config` literal `main` builds. -/
structure CorsConfig where
  AllowOrigins : List String
  AllowMethods : List String
  AllowHeaders : List String
  AllowCredentials : Bool
  deriving DecidableEq, Repr

/-- The handler functions that appear in the program: the four middlewares
`main` installs, and the route handlers `handlers.SetupRoutes` registers
(named, their bodies are outside this file). -/
inductive HandlerFunc where
  | LoggerWithFormatter
  | Recovery
  | Cors (cfg : CorsConfig)
  | SecurityHeaders
  | Route (name : String)
  deriving DecidableEq, Repr

/-- One registered route: method, path and the full handler chain stored for
it. -/
structure RouteInfo where
  Method : String
  Path : String
  Handlers : List HandlerFunc
  deriving DecidableEq, Repr

/-- The `gin.Engine`: the middlewares of its root group, the trusted proxies and
the registered routes. -/
structure Engine where
  Handlers : List HandlerFunc
  trustedProxies : List String
  routes : List RouteInfo
  deriving DecidableEq, Repr

/-- The engine `gin.New()` returns: no middleware, no route, every proxy
trusted. -/
def Engine.New : Engine :=
  { Handlers := [], trustedProxies := ["0.0.0.0/0", "::/0"], routes := [] }

/-- The method `engine.Use(middleware)`: the middleware is appended to the root
group's handlers. -/
def Engine.Use (e : Engine) (h : HandlerFunc) : Engine :=
  { e with Handlers := e.Handlers ++ [h] }

/-- The method `engine.SetTrustedProxies(list)`. -/
def Engine.SetTrustedProxies (e : Engine) (ps : List String) : Engine :=
  { e with trustedProxies := ps }

/-- The method `engine.Handle(method, path, handlers...)`: the chain stored for
the route is the group's handlers at the time of the call followed by the
route's own handlers. -/
def Engine.Handle (e : Engine) (method path : String) (hs : List HandlerFunc) : Engine :=
  { e with routes := e.routes ++ [{ Method := method, Path := path, Handlers := e.Handlers ++ hs }] }

/-! ## Calls and the process monad -/

/-- The collaborators `main` calls. -/
inductive Fn where
  | WithFields
  | LoadConfig
  | NewClient
  | Close
  | NewGrpcAdapter
  | NewFacade
  | New
  | Use
  | SetTrustedProxies
  | SetupRoutes
  | Info
  | Run
  | Fatalf
  deriving DecidableEq, Repr

/-- An argument passed in a call. -/
inductive Value where
  | str (s : String)
  | strs (l : List String)
  | err (e : GoError)
  | client (c : Client)
  | serviceClient (s : ServiceClient)
  | adapter (a : GrpcAdapter)
  | facade (f : Facade)
  | engine (e : Engine)
  | handler (h : HandlerFunc)
  | logger (l : Logger)
  deriving DecidableEq, Repr

/-- One call: the callee and the arguments (for a method, the receiver comes
first). -/
structure Call where
  fn : Fn
  args : List Value
  deriving DecidableEq, Repr

/-- The state of the running process: the calls made so far, oldest first, and
the deferred calls of `main`, most recent first. -/
structure Proc where
  trace : List Call
  deferred : List Call
  deriving DecidableEq, Repr

/-- Why a computation does not hand control back: the process exited with a
code (`os.Exit`), or the call blocks for as long as the process lives. -/
inductive Halt where
  | exit (code : Nat)
  | blocked
  deriving DecidableEq, Repr

/-- A Go computation: it updates the process state and either yields a value
or does not hand control back. -/
abbrev Go (α : Type) : Type := Proc → Except Halt α × Proc

/-- Sequencing of Go computations: when the first does not hand control back,
the second is not run. -/
def Go.bind {α β : Type} (m : Go α) (f : α → Go β) : Go β := fun p =>
  match m p with
  | (Except.ok a, p1) => f a p1
  | (Except.error halt, p1) => (Except.error halt, p1)

instance : Monad Go where
  pure a := fun p => (Except.ok a, p)
  bind := Go.bind

/-- Record a call to a collaborator. -/
def call (fn : Fn) (args : List Value) : Go Unit := fun p =>
  (Except.ok (), { p with trace := p.trace ++ [⟨fn, args⟩] })

/-- The statement `defer f(args)`: the call is pushed on the deferred stack. -/
def defer (fn : Fn) (args : List Value) : Go Unit := fun p =>
  (Except.ok (), { p with deferred := ⟨fn, args⟩ :: p.deferred })

/-- The function `os.Exit(code)`: the process stops at once. -/
def osExit {α : Type} (code : Nat) : Go α := fun p => (Except.error (Halt.exit code), p)

/-- A call that never returns. -/
def blockForever {α : Type} : Go α := fun p => (Except.error Halt.blocked, p)

/-- The method `logger.Fatalf(format, err)` of a logrus entry: the message is
logged, then the process exits with status 1. -/
def Fatalf {α : Type} (logger : Logger) (format : String) (err : GoError) : Go α := do
  call Fn.Fatalf [Value.logger logger, Value.str format, Value.err err]
  osExit 1

/-- What becomes of a call to `router.Run`: it blocks while the server serves,
so either it never returns, or it returns an error value (`none` for nil). -/
inductive RunResult where
  | serves
  | returns (err : Option GoError)
  deriving DecidableEq, Repr

/-- What the collaborators answer.  `SetupRoutes` lists the routes
(method, path, own handlers) that `handlers.SetupRoutes` registers for a
facade. -/
structure World where
  LoadConfig : String → Except GoError Config
  NewClient : String → Except GoError Client
  SetupRoutes : Facade → List (String × String × List HandlerFunc)
  Run : Engine → String → RunResult

/-- The CORS configuration literal of `main`. -/
def corsConfig : CorsConfig :=
  { AllowOrigins := ["https://example.com"],
    AllowMethods := ["GET", "POST", "PUT", "DELETE", "OPTIONS"],
    AllowHeaders := ["Origin", "Content-Type", "Authorization"],
    AllowCredentials := true }

/-- The call `handlers.SetupRoutes(router, facade, logger)`: the call is
recorded and the routes are registered on the router. -/
def SetupRoutes (w : World) (router : Engine) (facade : Facade) (logger : Logger) : Go Engine := do
  call Fn.SetupRoutes [Value.engine router, Value.facade facade, Value.logger logger]
  pure ((w.SetupRoutes facade).foldl (fun e r => e.Handle r.1 r.2.1 r.2.2) router)

/-- The function `main` of `Webserver/cmd/main.go`. -/
def main (w : World) : Go Unit := do
  call Fn.WithFields [Value.str "component", Value.str "webserver"]
  let logger : Logger := { fields := [("component", "webserver")] }
  -- Load configuration
  call Fn.LoadConfig [Value.str "internal/config/EnvConfig.ini"]
  let cfg ← match w.LoadConfig "internal/config/EnvConfig.ini" with
    | Except.error err => Fatalf logger "Failed to load config: %v" err
    | Except.ok cfg => pure cfg
  -- Create gRPC client
  call Fn.NewClient [Value.str cfg.GRPCServerAddress]
  let grpcClient ← match w.NewClient cfg.GRPCServerAddress with
    | Except.error err => Fatalf logger "Failed to create gRPC client: %v" err
    | Except.ok c => pure c
  defer Fn.Close [Value.client grpcClient]
  -- Initialize gRPC adapter with both service clients
  call Fn.NewGrpcAdapter [Value.serviceClient grpcClient.FnoPositionServiceClient,
    Value.serviceClient grpcClient.OrderDetailsServiceClient]
  let grpcAdapter := GrpcAdapter.NewGrpcAdapter grpcClient.FnoPositionServiceClient
    grpcClient.OrderDetailsServiceClient
  -- Create facade with the updated adapter
  call Fn.NewFacade [Value.adapter grpcAdapter]
  let facade := Facade.NewFacade grpcAdapter
  call Fn.New []
  let router := Engine.New
  -- Attach default Logger and Recovery middleware
  call Fn.Use [Value.handler HandlerFunc.LoggerWithFormatter]
  let router := router.Use HandlerFunc.LoggerWithFormatter
  call Fn.Use [Value.handler HandlerFunc.Recovery]
  let router := router.Use HandlerFunc.Recovery
  -- CORS configuration
  call Fn.Use [Value.handler (HandlerFunc.Cors corsConfig)]
  let router := router.Use (HandlerFunc.Cors corsConfig)
  -- Set trusted proxies
  call Fn.SetTrustedProxies [Value.strs ["127.0.0.1"]]
  let router := router.SetTrustedProxies ["127.0.0.1"]
  -- Security headers
  call Fn.Use [Value.handler HandlerFunc.SecurityHeaders]
  let router := router.Use HandlerFunc.SecurityHeaders
  -- Setup routes
  let router ← SetupRoutes w router facade logger
  -- Start the web server
  call Fn.Info [Value.logger logger, Value.str "Starting web server on ", Value.str cfg.ServerAddress]
  call Fn.Run [Value.engine router, Value.str cfg.ServerAddress]
  match w.Run router cfg.ServerAddress with
  | RunResult.serves => blockForever
  | RunResult.returns (some err) => Fatalf logger "Failed to start server: %v" err
  | RunResult.returns none => pure ()

/-- One execution: the calls the process made, in order, and the exit code
with which it ended by itself (`none` when it serves for as long as it
lives). -/
structure Execution where
  trace : List Call
  exitCode : Option Nat
  deriving DecidableEq, Repr

/-- One execution of the program.  When `main` returns, its deferred calls run,
most recent first, and the process exits with status 0.  When the process is
stopped by `os.Exit`, deferred calls are not run.  When `main` is blocked in a
call, nothing more happens. -/
def run (w : World) : Execution :=
  match main w { trace := [], deferred := [] } with
  | (Except.ok (), p) => { trace := p.trace ++ p.deferred, exitCode := some 0 }
  | (Except.error (Halt.exit code), p) => { trace := p.trace, exitCode := some code }
  | (Except.error Halt.blocked, p) => { trace := p.trace, exitCode := none }

/-- The calls to `fn` in a trace. -/
def callsTo (fn : Fn) (t : List Call) : List Call :=
  t.filter (fun c => decide (c.fn = fn))

/-- A sample configuration. -/
def sampleConfig : Config :=
  { GRPCServerAddress := "localhost:50051", ServerAddress := ":8080", others := [] }

/-- The sample configuration with one more setting. -/
def verboseConfig : Config :=
  { GRPCServerAddress := "localhost:50051", ServerAddress := ":8080",
    others := [("LogLevel", "debug")] }

/-- A sample connection handle. -/
def sampleClient : Client :=
  { conn := 1, FnoPositionServiceClient := ⟨10⟩, OrderDetailsServiceClient := ⟨20⟩ }

/-- The error of a listen address that is taken. -/
def addressInUse : GoError := ⟨"listen tcp :8080: bind: address already in use"⟩

/-- A sample world in which everything succeeds until `router.Run` fails
(`okRun = false`) or returns nil (`okRun = true`). -/
def sampleWorld (okRun : Bool) : World :=
  { LoadConfig := fun _ => Except.ok sampleConfig,
    NewClient := fun _ => Except.ok sampleClient,
    SetupRoutes := fun _ => [("GET", "/positions", [HandlerFunc.Route "positions"])],
    Run := fun _ _ => RunResult.returns (if okRun then none else some addressInUse) }

/-- The sample world in which the server serves for as long as the process
lives. -/
def servingWorld : World :=
  { sampleWorld true with Run := fun _ _ => RunResult.serves }

/-- Every call of the trace that satisfies `q` comes after some call that
satisfies `p`. -/
def precededBy (p q : Call → Bool) : List Call → Bool
  | [] => true
  | c :: t => if q c then false else if p c then true else precededBy p q t

/-- The test "is a call to `fn`". -/
def isCallTo (fn : Fn) (c : Call) : Bool := decide (c.fn = fn)

/-- The path of the configuration file, as written in `main`. -/
def configPath : String := "internal/config/EnvConfig.ini"

/-- The logger entry `main` uses. -/
def mainLogger : Logger := { fields := [("component", "webserver")] }

/-- The router as it is when `handlers.SetupRoutes` receives it: the four
middlewares installed in source order and the trusted proxies set. -/
def routerAtSetup : Engine :=
  (((Engine.New.Use HandlerFunc.LoggerWithFormatter).Use HandlerFunc.Recovery).Use
    (HandlerFunc.Cors corsConfig)).SetTrustedProxies ["127.0.0.1"] |>.Use HandlerFunc.SecurityHeaders

/-- The router as it is when `router.Run` receives it. -/
def routerAtRun (w : World) (facade : Facade) : Engine :=
  (w.SetupRoutes facade).foldl (fun e r => e.Handle r.1 r.2.1 r.2.2) routerAtSetup

/-- The facade `main` builds from a connection handle. -/
def facadeOf (c : Client) : Facade :=
  Facade.NewFacade (GrpcAdapter.NewGrpcAdapter c.FnoPositionServiceClient c.OrderDetailsServiceClient)

/-- The calls of an execution up to and including `config.LoadConfig`. -/
def callsToConfig : List Call :=
  [⟨Fn.WithFields, [Value.str "component", Value.str "webserver"]⟩,
   ⟨Fn.LoadConfig, [Value.str configPath]⟩]

/-- The calls of an execution from `grpc.NewClient` up to and including
`router.Run`, for a loaded configuration and an opened connection. -/
def callsToRun (w : World) (cfg : Config) (c : Client) : List Call :=
  [⟨Fn.NewClient, [Value.str cfg.GRPCServerAddress]⟩,
   ⟨Fn.NewGrpcAdapter, [Value.serviceClient c.FnoPositionServiceClient,
      Value.serviceClient c.OrderDetailsServiceClient]⟩,
   ⟨Fn.NewFacade, [Value.adapter (GrpcAdapter.NewGrpcAdapter c.FnoPositionServiceClient
      c.OrderDetailsServiceClient)]⟩,
   ⟨Fn.New, []⟩,
   ⟨Fn.Use, [Value.handler HandlerFunc.LoggerWithFormatter]⟩,
   ⟨Fn.Use, [Value.handler HandlerFunc.Recovery]⟩,
   ⟨Fn.Use, [Value.handler (HandlerFunc.Cors corsConfig)]⟩,
   ⟨Fn.SetTrustedProxies, [Value.strs ["127.0.0.1"]]⟩,
   ⟨Fn.Use, [Value.handler HandlerFunc.SecurityHeaders]⟩,
   ⟨Fn.SetupRoutes, [Value.engine routerAtSetup, Value.facade (facadeOf c), Value.logger mainLogger]⟩,
   ⟨Fn.Info, [Value.logger mainLogger, Value.str "Starting web server on ", Value.str cfg.ServerAddress]⟩,
   ⟨Fn.Run, [Value.engine (routerAtRun w (facadeOf c)), Value.str cfg.ServerAddress]⟩]

/-- The call `logger.Fatalf(format, err)` of `main`. -/
def fatalCall (format : String) (err : GoError) : Call :=
  ⟨Fn.Fatalf, [Value.logger mainLogger, Value.str format, Value.err err]⟩

/-- A world whose backend cannot be reached: the configuration loads,
`grpc.NewClient` fails. -/
def noBackendWorld : World :=
  { LoadConfig := fun _ => Except.ok sampleConfig,
    NewClient := fun _ => Except.error ⟨"connection refused"⟩,
    SetupRoutes := fun _ => [],
    Run := fun _ _ => RunResult.returns none }

/-! ## The security-header middleware -/

/-- The bytes Go accepts in a header field name (`validHeaderFieldByte` of
`net/textproto`): letters, digits and the token punctuation. -/
def validHeaderFieldByte (c : Char) : Bool :=
  c.isAlphanum || ['!', '#', '$', '%', '&', Char.ofNat 39, '*', '+', '-', '.', '^', '_',
    Char.ofNat 96, '|', '~'].contains c

/-- The letter case of a canonical header key: upper case at the start and
after each dash, lower case elsewhere. -/
def canonicalLetters : Bool → List Char → List Char
  | _, [] => []
  | upper, c :: cs =>
    let c2 := if upper && c.isLower then c.toUpper
      else if !upper && c.isUpper then c.toLower else c
    c2 :: canonicalLetters (c2 == '-') cs

/-- The function `textproto.CanonicalMIMEHeaderKey`: a key made of valid field
bytes is put in canonical letter case, any other key is returned unchanged. -/
def CanonicalMIMEHeaderKey (s : String) : String :=
  if s.toList.all validHeaderFieldByte then String.mk (canonicalLetters true s.toList) else s

/-- The type `http.Header`, a `map[string][]string`. -/
abbrev Header : Type := String → Option (List String)

/-- The method `Header.Set(key, value)`: the entry of the canonical key is
replaced by the single value. -/
def Header.Set (h : Header) (key value : String) : Header :=
  fun k => if k = CanonicalMIMEHeaderKey key then some [value] else h k

/-- The method `Header.Values(key)`: the values stored under the canonical
key. -/
def Header.Values (h : Header) (key : String) : List String :=
  (h (CanonicalMIMEHeaderKey key)).getD []

/-- The method `Header.Get(key)`: the first value stored under the canonical
key, or the empty string. -/
def Header.Get (h : Header) (key : String) : String :=
  (Header.Values h key).headD ""

/-- The part of an `http.Request` the middlewares read: `Origin` is the value
of the `Origin` header, empty when the header is absent. -/
structure Request where
  Method : String
  Path : String
  Host : String
  Origin : String
  deriving DecidableEq, Repr

/-- The part of a `gin.Context` the handlers touch: `header` is
`c.Writer.Header()`, `status` the response status, `index` the position in the
handler chain (`c.index`).  Two fields keep a record of the run: `nextCalls`
counts the calls of `c.Next()`, and `ran` lists the handlers invoked so far,
each with the response header it was handed. -/
structure Context where
  Request : Request
  header : Header
  status : Nat
  index : Int
  nextCalls : Nat
  ran : List (HandlerFunc × Header)

/-- The method `c.Next()`: the call is counted, the index moves to the next
handler, and the rest of the handler chain, `rest`, runs on the context. -/
def Context.Next (c : Context) (rest : Context → Context) : Context :=
  rest { c with index := c.index + 1, nextCalls := c.nextCalls + 1 }

/-- The constant `abortIndex` of gin. -/
def abortIndex : Int := 63

/-- The method `c.AbortWithStatus(code)`: the status is written and the index
is moved past every handler. -/
def Context.AbortWithStatus (c : Context) (code : Nat) : Context :=
  { c with status := code, index := abortIndex }

/-- The security-header middleware, the closure passed to the fourth
`router.Use` of `main` (the handler `HandlerFunc.SecurityHeaders`).  `rest` is
what the remaining handlers of the chain do. -/
def securityHeaders (rest : Context → Context) (c : Context) : Context :=
  let c1 : Context := { c with header := c.header.Set "X-Frame-Options" "DENY" }
  let c2 : Context := { c1 with header := c1.header.Set "X-XSS-Protection" "1; mode=block" }
  c2.Next rest

/-- What the handlers whose code is outside this file write to the response
header: the CORS middleware on an accepted cross-origin request
(`corsNormal`) and on a preflight request (`corsPreflight`), and each route
handler registered by `handlers.SetupRoutes` (`route`, by the handler's
name). -/
structure Bodies where
  corsNormal : Request → Header → Header
  corsPreflight : Request → Header → Header
  route : String → Request → Header → Header

/-- Whether the CORS middleware accepts an origin: every origin when the
configuration lists `*`, else the listed origins. -/
def validateOrigin (cfg : CorsConfig) (origin : String) : Bool :=
  cfg.AllowOrigins.contains "*" || cfg.AllowOrigins.contains origin

/-- The CORS middleware (`applyCors` of gin-contrib/cors).  A request without
`Origin`, or whose origin is its own host, is not a CORS request and passes
untouched.  A request from an origin that is not allowed is aborted with
status 403.  A preflight (`OPTIONS`) from an allowed origin gets its headers
and is aborted with status 204.  Any other request from an allowed origin gets
its headers and passes.  The middleware does not call `c.Next()`. -/
def applyCors (lib : Bodies) (cfg : CorsConfig) (c : Context) : Context :=
  let origin := c.Request.Origin
  if origin = "" then c
  else if origin = "http://" ++ c.Request.Host ∨ origin = "https://" ++ c.Request.Host then c
  else if validateOrigin cfg origin = false then c.AbortWithStatus 403
  else if c.Request.Method = "OPTIONS" then
    Context.AbortWithStatus { c with header := lib.corsPreflight c.Request c.header } 204
  else { c with header := lib.corsNormal c.Request c.header }

/-- The body of each handler function.  The logger and the recovery middleware
of gin call `c.Next()` and do nothing else to the context; the route handlers
write to the response header. -/
def HandlerFunc.body (lib : Bodies) (h : HandlerFunc) (rest : Context → Context)
    (c : Context) : Context :=
  match h with
  | HandlerFunc.LoggerWithFormatter => c.Next rest
  | HandlerFunc.Recovery => c.Next rest
  | HandlerFunc.Cors cfg => applyCors lib cfg c
  | HandlerFunc.SecurityHeaders => securityHeaders rest c
  | HandlerFunc.Route name => { c with header := lib.route name c.Request c.header }

/-- A request to the sample route from the allowed origin. -/
def allowedRequest : Request :=
  { Method := "GET", Path := "/positions", Host := "api.example.com",
    Origin := "https://example.com" }

/-- The decimal digits of a number, as `strconv` and `fmtInt` of package
`time` write them. -/
def fmtInt (buf : List Char) (v : Nat) : List Char :=
  Nat.toDigits 10 v ++ buf

/-- The loop of `fmtFrac` of package `time`: the last `prec` digits of `v` are
written in front of `buf`, trailing zeros omitted. -/
def fmtFracLoop : Nat → Nat → Bool → List Char → List Char × Nat × Bool
  | 0, v, print, buf => (buf, v, print)
  | n + 1, v, print, buf =>
    let digit := v % 10
    let print := print || digit != 0
    fmtFracLoop n (v / 10) print (if print then Nat.digitChar digit :: buf else buf)

/-- The function `fmtFrac` of package `time`: the fraction of `v / 10 ^ prec`
is written in front of `buf`, with its decimal point, unless it is zero; the
integer part is returned too. -/
def fmtFrac (buf : List Char) (v : Nat) (prec : Nat) : List Char × Nat :=
  match fmtFracLoop prec v false buf with
  | (b, v2, print) => (if print then '.' :: b else b, v2)

/-- The method `Duration.String()`, on a duration in nanoseconds. -/
def Duration.String (d : Int) : List Char :=
  let u := d.natAbs
  let body : List Char :=
    if u < 1000000000 then
      if u = 0 then ['0', 's']
      else if u < 1000 then
        let r := fmtFrac ['n', 's'] u 0
        fmtInt r.1 r.2
      else if u < 1000000 then
        let r := fmtFrac ['µ', 's'] u 3
        fmtInt r.1 r.2
      else
        let r := fmtFrac ['m', 's'] u 6
        fmtInt r.1 r.2
    else
      let r := fmtFrac ['s'] u 9
      let b := fmtInt r.1 (r.2 % 60)
      let u1 := r.2 / 60
      if u1 > 0 then
        let b1 := fmtInt ('m' :: b) (u1 % 60)
        let u2 := u1 / 60
        if u2 > 0 then fmtInt ('h' :: b1) u2 else b1
      else b
  if d < 0 then '-' :: body else body

/-- The function `appendInt` of package `time` on a non-negative number: the
decimal digits, padded with zeros to `width`. -/
def appendInt (x width : Nat) : List Char :=
  let ds := Nat.toDigits 10 x
  List.replicate (width - ds.length) '0' ++ ds

/-- A `time.Time` by its calendar fields in its own location; `offset` is the
zone offset in seconds east of UTC. -/
structure Time where
  year : Nat
  month : Nat
  day : Nat
  hour : Nat
  minute : Nat
  second : Nat
  offset : Int

/-- The call `t.Format(time.RFC3339)`, layout `2006-01-02T15:04:05Z07:00`; the
zone is `Z` for UTC, else sign, hours and minutes of the offset (Go's `/` on
integers truncates toward zero). -/
def Time.FormatRFC3339 (t : Time) : List Char :=
  let zone : Int := Int.tdiv t.offset 60
  let tz : List Char :=
    if t.offset = 0 then ['Z']
    else (if zone < 0 then '-' else '+') ::
      (appendInt (zone.natAbs / 60) 2 ++ ':' :: appendInt (zone.natAbs % 60) 2)
  appendInt t.year 4 ++ '-' :: appendInt t.month 2 ++ '-' :: appendInt t.day 2 ++ 'T' ::
    appendInt t.hour 2 ++ ':' :: appendInt t.minute 2 ++ ':' :: appendInt t.second 2 ++ tz

/-- The fields of `gin.LogFormatterParams` the formatter reads; `Latency` is a
`time.Duration` in nanoseconds. -/
structure LogFormatterParams where
  TimeStamp : Time
  StatusCode : Int
  Latency : Int
  ClientIP : String
  Method : String
  Path : String

/-- An operand of `fmt.Sprintf`. -/
inductive Operand where
  | str (s : List Char)
  | int (i : Int)
  | duration (d : Int)

/-- How `fmt` renders one operand under a verb: `%s` writes a string as it is
and a duration through its `String()` method, `%d` writes an integer in
decimal.  Other pairs do not occur in `main`; they render as the marker
`%!`. -/
def formatOperand (verb : Char) (a : Operand) : List Char :=
  match a with
  | Operand.str s => if verb = 's' then s else ['%', '!', verb]
  | Operand.duration d => if verb = 's' then Duration.String d else ['%', '!', verb]
  | Operand.int i =>
    if verb = 'd' then (if i < 0 then '-' :: Nat.toDigits 10 i.natAbs else Nat.toDigits 10 i.natAbs)
    else ['%', '!', verb]

/-- The function `fmt.Sprintf` on a format whose verbs are single letters:
each `%x` consumes the next operand, every other character is copied. -/
def Sprintf : List Char → List Operand → List Char
  | [], _ => []
  | [c], _ => [c]
  | c :: v :: rest, ops =>
    if c = '%' then
      match ops with
      | a :: ops2 => formatOperand v a ++ Sprintf rest ops2
      | [] => ['%', '!', v] ++ Sprintf rest []
    else c :: Sprintf (v :: rest) ops

/-- The format string of the access log, as written in `main`. -/
def accessLogFormat : String :=
  "\x7b\"time\":\"%s\",\"method\":\"%s\",\"path\":\"%s\",\"status\":%d,\"latency\":%s,\"client_ip\":\"%s\"\x7d" ++ "\n"

/-- The access-log formatter, the closure passed to `gin.LoggerWithFormatter`
in `main`. -/
def accessLogFormatter (param : LogFormatterParams) : String :=
  String.mk (Sprintf accessLogFormat.toList
    [Operand.str param.TimeStamp.FormatRFC3339,
     Operand.str param.Method.toList,
     Operand.str param.Path.toList,
     Operand.int param.StatusCode,
     Operand.duration param.Latency,
     Operand.str param.ClientIP.toList])

/-- A plain request: `GET /positions` answered with 200 in 1.5 ms. -/
def sampleParams : LogFormatterParams :=
  { TimeStamp := { year := 2024, month := 5, day := 17, hour := 9, minute := 30, second := 0,
                   offset := 0 },
    StatusCode := 200,
    Latency := 1500000,
    ClientIP := "127.0.0.1",
    Method := "GET",
    Path := "/positions" }

/-! ### Well-formed JSON (RFC 8259) -/

/-- Skip JSON white space. -/
def skipWs : List Char → List Char
  | [] => []
  | c :: cs => if c = ' ' ∨ c = '\t' ∨ c = '\n' ∨ c = '\r' then skipWs cs else c :: cs

/-- Whether a character is a hexadecimal digit. -/
def isHex (c : Char) : Bool :=
  c.isDigit || ('a' ≤ c && c ≤ 'f') || ('A' ≤ c && c ≤ 'F')

/-- Read a JSON string after its opening quote: the raw characters up to the
closing quote, and what follows it.  Control characters and unknown escapes
are refused. -/
def readString : List Char → Option (List Char × List Char)
  | [] => none
  | [c] => if c = '"' then some ([], []) else none
  | c :: d :: rest =>
    if c = '"' then some ([], d :: rest)
    else if c = '\\' then
      if d = 'u' then
        match rest with
        | h1 :: h2 :: h3 :: h4 :: rest2 =>
          if isHex h1 && isHex h2 && isHex h3 && isHex h4 then
            (readString rest2).map (fun r => (c :: d :: h1 :: h2 :: h3 :: h4 :: r.1, r.2))
          else none
        | _ => none
      else if ['"', '\\', '/', 'b', 'f', 'n', 'r', 't'].contains d then
        (readString rest).map (fun r => (c :: d :: r.1, r.2))
      else none
    else if c.toNat < 32 then none
    else (readString (d :: rest)).map (fun r => (c :: r.1, r.2))

/-- Drop the leading decimal digits. -/
def skipDigits : List Char → List Char
  | [] => []
  | c :: cs => if c.isDigit then skipDigits cs else c :: cs

/-- Read one or more decimal digits. -/
def readDigits : List Char → Option (List Char)
  | c :: cs => if c.isDigit then some (skipDigits cs) else none
  | [] => none

/-- Read a JSON number: optional minus, integer part without leading zero,
optional fraction, optional exponent. -/
def readNumber (cs : List Char) : Option (List Char) :=
  let afterSign := match cs with
    | c :: r => if c = '-' then r else cs
    | [] => cs
  let afterInt : Option (List Char) := match afterSign with
    | c :: r => if c = '0' then some r else if c.isDigit then some (skipDigits r) else none
    | [] => none
  let afterFrac : Option (List Char) := afterInt.bind fun r =>
    match r with
    | c :: r2 => if c = '.' then readDigits r2 else some r
    | [] => some r
  afterFrac.bind fun r =>
    match r with
    | c :: r2 =>
      if c = 'e' ∨ c = 'E' then
        match r2 with
        | s :: r3 => if s = '+' ∨ s = '-' then readDigits r3 else readDigits r2
        | [] => none
      else some r
    | [] => some r

/-- What the reader is in the middle of. -/
inductive Mode where
  | value
  | members
  | elements

/-- Read past one JSON value (`Mode.value`), past the members of an object up
to its closing brace (`Mode.members`), or past the elements of an array up to
its closing bracket (`Mode.elements`); the result is what follows.  The first
argument bounds the number of nested reads. -/
def readJson : Nat → Mode → List Char → Option (List Char)
  | 0, _, _ => none
  | n + 1, Mode.value, cs =>
    match skipWs cs with
    | [] => none
    | c :: r =>
      if c = '{' then
        match skipWs r with
        | d :: r2 => if d = '}' then some r2 else readJson n Mode.members r
        | [] => none
      else if c = '[' then
        match skipWs r with
        | d :: r2 => if d = ']' then some r2 else readJson n Mode.elements r
        | [] => none
      else if c = '"' then (readString r).map (fun p => p.2)
      else if c = 't' then
        match r with
        | 'r' :: 'u' :: 'e' :: r2 => some r2
        | _ => none
      else if c = 'f' then
        match r with
        | 'a' :: 'l' :: 's' :: 'e' :: r2 => some r2
        | _ => none
      else if c = 'n' then
        match r with
        | 'u' :: 'l' :: 'l' :: r2 => some r2
        | _ => none
      else readNumber (c :: r)
  | n + 1, Mode.members, cs =>
    match skipWs cs with
    | [] => none
    | c :: r =>
      if c = '"' then
        match readString r with
        | none => none
        | some (_, r2) =>
          match skipWs r2 with
          | [] => none
          | d :: r3 =>
            if d = ':' then
              match readJson n Mode.value r3 with
              | none => none
              | some r4 =>
                match skipWs r4 with
                | [] => none
                | e :: r5 =>
                  if e = ',' then readJson n Mode.members r5
                  else if e = '}' then some r5 else none
            else none
      else none
  | n + 1, Mode.elements, cs =>
    match readJson n Mode.value cs with
    | none => none
    | some r =>
      match skipWs r with
      | [] => none
      | e :: r2 =>
        if e = ',' then readJson n Mode.elements r2
        else if e = ']' then some r2 else none

/-- Read the members of the outermost object, after its opening brace: the keys
in order, and what follows the closing brace. -/
def readKeys : Nat → List Char → Option (List (List Char) × List Char)
  | 0, _ => none
  | n + 1, cs =>
    match skipWs cs with
    | [] => none
    | c :: r =>
      if c = '"' then
        match readString r with
        | none => none
        | some (key, r2) =>
          match skipWs r2 with
          | [] => none
          | d :: r3 =>
            if d = ':' then
              match readJson (r3.length + 1) Mode.value r3 with
              | none => none
              | some r4 =>
                match skipWs r4 with
                | [] => none
                | e :: r5 =>
                  if e = ',' then (readKeys n r5).map (fun p => (key :: p.1, p.2))
                  else if e = '}' then some ([key], r5) else none
            else none
      else none

/-- The keys of a text that is exactly one well-formed JSON object (white space
around it allowed); `none` for any other text. -/
def jsonObjectKeys (cs : List Char) : Option (List (List Char)) :=
  match skipWs cs with
  | [] => none
  | c :: r =>
    if c = '{' then
      match skipWs r with
      | [] => none
      | d :: r2 =>
        if d = '}' then (if skipWs r2 = [] then some [] else none)
        else
          match readKeys (r.length + 1) r with
          | some (keys, r3) => if skipWs r3 = [] then some keys else none
          | none => none
    else none

/-- The keys of an access-log line, in the order of the format. -/
def accessLogKeys : List (List Char) :=
  ["time".toList, "method".toList, "path".toList, "status".toList, "latency".toList,
   "client_ip".toList]

/-- Whether a text is a single line, ended by its only newline, that holds a
well-formed JSON object with the keys of the access log. -/
def isAccessLogLine (line : String) : Bool :=
  match line.toList.reverse with
  | [] => false
  | c :: body =>
    c = '\n' && !body.contains '\n' && jsonObjectKeys body.reverse = some accessLogKeys

/-- The access-log line of the sample request had the formatter put the
latency between quotes like the other texts. -/
def quotedLatencyLine : String :=
  "\x7b\"time\":\"2024-05-17T09:30:00Z\",\"method\":\"GET\",\"path\":\"/positions\",\"status\":200,\"latency\":\"1.5ms\",\"client_ip\":\"127.0.0.1\"\x7d\n"

/-! ## The facade and the error mapping -/

/-- Modelled from the spec: the kinds of a Backend Error (§3); the package
`internal/grpc` that defines them is not among the sources. -/
inductive BackendErrorKind where
  | Unavailable
  | Timeout
  | InvalidArgument
  | NotFound
  | Internal
  deriving DecidableEq, Repr

/-- Modelled from the spec: a Backend Error (§3), a kind and an optional
detail text; its definition is not among the sources. -/
structure BackendError where
  kind : BackendErrorKind
  detail : Option String
  deriving DecidableEq, Repr

/-- Modelled from the spec: the status table of §6, applied by the HTTP handlers
of package `internal/handlers`, which is not among the sources. -/
def httpStatus : BackendErrorKind → Nat
  | BackendErrorKind.InvalidArgument => 400
  | BackendErrorKind.NotFound => 404
  | BackendErrorKind.Timeout => 504
  | BackendErrorKind.Unavailable => 503
  | BackendErrorKind.Internal => 500

/-- Modelled from the spec: the outcomes of a failed backend call that §4.2
tells apart; `other` is any other failure the backend declares, with its
status code. -/
inductive RpcFailure where
  | connectionReset
  | deadlineExceeded
  | invalidInput
  | emptyResult
  | other (code : Nat)
  deriving DecidableEq, Repr

/-- Modelled from the spec: the error translation of the Service Adapter (§4.2),
whose code is not among the sources. -/
def translate : RpcFailure → BackendErrorKind
  | RpcFailure.connectionReset => BackendErrorKind.Unavailable
  | RpcFailure.deadlineExceeded => BackendErrorKind.Timeout
  | RpcFailure.invalidInput => BackendErrorKind.InvalidArgument
  | RpcFailure.emptyResult => BackendErrorKind.NotFound
  | RpcFailure.other _ => BackendErrorKind.Internal

/-- Modelled from the spec: a position record (§3), with the two fields the
spec's scenarios use; the record type of the backend schema is not among the
sources. -/
structure PositionRecord where
  instrument : String
  qty : Int
  deriving DecidableEq, Repr

/-- Modelled from the spec: an order record (§3), with the two fields the
spec's scenarios use; the record type of the backend schema is not among the
sources. -/
structure OrderRecord where
  orderId : String
  status : String
  deriving DecidableEq, Repr

/-- Modelled from the spec: the Aggregated Response (§3), both result sets of
one request; the facade's types are not among the sources. -/
structure AggregatedResponse where
  positions : List PositionRecord
  orders : List OrderRecord
  deriving DecidableEq, Repr

/-- Modelled from the spec: the two call surfaces of the Service Adapter (§4.2),
each answering a filter with a result or a Backend Error; the adapter's code
is not among the sources. -/
structure ServiceAdapter where
  GetPositions : String → Except BackendError (List PositionRecord)
  GetOrderDetails : String → Except BackendError (List OrderRecord)

/-- Modelled from the spec: `GetPositionsForAccount` of the Facade (§4.3), a
pass-through to the position call; the facade's code is not among the
sources. -/
def GetPositionsForAccount (a : ServiceAdapter) (request : String) :
    Except BackendError (List PositionRecord) :=
  a.GetPositions request

/-- Modelled from the spec: `GetOrderDetailsForAccount` of the Facade (§4.3), a
pass-through to the order call; the facade's code is not among the sources. -/
def GetOrderDetailsForAccount (a : ServiceAdapter) (request : String) :
    Except BackendError (List OrderRecord) :=
  a.GetOrderDetails request

/-- Modelled from the spec: `GetAccountSummary` of the Facade (§4.3), whose code
is not among the sources.  Both adapter calls are issued for the same account
and both are awaited; a failed position call decides the error, else a failed
order call does, else both result sets are combined. -/
def GetAccountSummary (a : ServiceAdapter) (request : String) :
    Except BackendError AggregatedResponse :=
  let positions := a.GetPositions request
  let orders := a.GetOrderDetails request
  match positions, orders with
  | Except.error e, _ => Except.error e
  | Except.ok _, Except.error e => Except.error e
  | Except.ok ps, Except.ok os => Except.ok { positions := ps, orders := os }

/-- The adapter of the spec's scenarios for account `A1`: the order service
answers, the position service answers or (`positionsTimeOut`) times out. -/
def scenarioAdapter (positionsTimeOut : Bool) : ServiceAdapter :=
  { GetPositions := fun _ =>
      if positionsTimeOut then Except.error ⟨BackendErrorKind.Timeout, none⟩
      else Except.ok [⟨"X", 10⟩],
    GetOrderDetails := fun _ => Except.ok [⟨"O1", "FILLED"⟩] }

end Webserver

namespace Webserver

/-! ## The executions of `main` -/

theorem run_config_error (w : World) (err : GoError)
    (h : w.LoadConfig configPath = Except.error err) :
    run w = { trace := callsToConfig ++ [fatalCall "Failed to load config: %v" err],
              exitCode := some 1 } := by
  simp only [configPath] at h
  simp [run, main, h, bind, Go.bind, call, Fatalf, osExit, callsToConfig, fatalCall, configPath,
    mainLogger]

theorem run_client_error (w : World) (cfg : Config) (err : GoError)
    (h : w.LoadConfig configPath = Except.ok cfg)
    (hc : w.NewClient cfg.GRPCServerAddress = Except.error err) :
    run w = { trace := callsToConfig ++ [⟨Fn.NewClient, [Value.str cfg.GRPCServerAddress]⟩,
                fatalCall "Failed to create gRPC client: %v" err],
              exitCode := some 1 } := by
  simp only [configPath] at h
  simp [run, main, h, hc, bind, Go.bind, call, Fatalf, osExit, callsToConfig, fatalCall,
    configPath, mainLogger, pure]

theorem run_serve_error (w : World) (cfg : Config) (c : Client) (err : GoError)
    (h : w.LoadConfig configPath = Except.ok cfg)
    (hc : w.NewClient cfg.GRPCServerAddress = Except.ok c)
    (hr : w.Run (routerAtRun w (facadeOf c)) cfg.ServerAddress = RunResult.returns (some err)) :
    run w = { trace := callsToConfig ++ callsToRun w cfg c ++
                [fatalCall "Failed to start server: %v" err],
              exitCode := some 1 } := by
  simp only [configPath] at h
  simp only [routerAtRun, facadeOf, routerAtSetup] at hr
  simp [run, main, h, hc, hr, bind, Go.bind, call, defer, Fatalf, osExit, callsToConfig,
    callsToRun, fatalCall, configPath, mainLogger, pure, SetupRoutes, routerAtRun, facadeOf,
    routerAtSetup]

theorem run_serve_nil (w : World) (cfg : Config) (c : Client)
    (h : w.LoadConfig configPath = Except.ok cfg)
    (hc : w.NewClient cfg.GRPCServerAddress = Except.ok c)
    (hr : w.Run (routerAtRun w (facadeOf c)) cfg.ServerAddress = RunResult.returns none) :
    run w = { trace := callsToConfig ++ callsToRun w cfg c ++ [⟨Fn.Close, [Value.client c]⟩],
              exitCode := some 0 } := by
  simp only [configPath] at h
  simp only [routerAtRun, facadeOf, routerAtSetup] at hr
  simp [run, main, h, hc, hr, bind, Go.bind, call, defer, Fatalf, osExit, callsToConfig,
    callsToRun, fatalCall, configPath, mainLogger, pure, SetupRoutes, routerAtRun, facadeOf,
    routerAtSetup]

theorem run_serving (w : World) (cfg : Config) (c : Client)
    (h : w.LoadConfig configPath = Except.ok cfg)
    (hc : w.NewClient cfg.GRPCServerAddress = Except.ok c)
    (hr : w.Run (routerAtRun w (facadeOf c)) cfg.ServerAddress = RunResult.serves) :
    run w = { trace := callsToConfig ++ callsToRun w cfg c, exitCode := none } := by
  simp only [configPath] at h
  simp only [routerAtRun, facadeOf, routerAtSetup] at hr
  simp [run, main, h, hc, hr, bind, Go.bind, call, defer, blockForever, callsToConfig,
    callsToRun, configPath, mainLogger, pure, SetupRoutes, routerAtRun, facadeOf,
    routerAtSetup]

/-- Every execution of `main` has one of five shapes: the configuration fails
to load; the connection fails to open; the server serves without end;
`router.Run` returns an error; `router.Run` returns nil. -/
theorem run_cases (w : World) :
    (∃ err, w.LoadConfig configPath = Except.error err ∧
      run w = { trace := callsToConfig ++ [fatalCall "Failed to load config: %v" err],
                exitCode := some 1 }) ∨
    (∃ cfg err, w.LoadConfig configPath = Except.ok cfg ∧
      w.NewClient cfg.GRPCServerAddress = Except.error err ∧
      run w = { trace := callsToConfig ++ [⟨Fn.NewClient, [Value.str cfg.GRPCServerAddress]⟩,
                  fatalCall "Failed to create gRPC client: %v" err],
                exitCode := some 1 }) ∨
    (∃ cfg c, w.LoadConfig configPath = Except.ok cfg ∧
      w.NewClient cfg.GRPCServerAddress = Except.ok c ∧
      ((w.Run (routerAtRun w (facadeOf c)) cfg.ServerAddress = RunResult.serves ∧
        run w = { trace := callsToConfig ++ callsToRun w cfg c, exitCode := none }) ∨
       (∃ err, w.Run (routerAtRun w (facadeOf c)) cfg.ServerAddress =
            RunResult.returns (some err) ∧
          run w = { trace := callsToConfig ++ callsToRun w cfg c ++
                      [fatalCall "Failed to start server: %v" err],
                    exitCode := some 1 }) ∨
       (w.Run (routerAtRun w (facadeOf c)) cfg.ServerAddress = RunResult.returns none ∧
        run w = { trace := callsToConfig ++ callsToRun w cfg c ++
                    [⟨Fn.Close, [Value.client c]⟩],
                  exitCode := some 0 }))) := by
  cases h : w.LoadConfig configPath with
  | error err => exact Or.inl ⟨err, rfl, run_config_error w err h⟩
  | ok cfg =>
    cases hc : w.NewClient cfg.GRPCServerAddress with
    | error err => exact Or.inr (Or.inl ⟨cfg, err, rfl, hc, run_client_error w cfg err h hc⟩)
    | ok c =>
      refine Or.inr (Or.inr ⟨cfg, c, rfl, hc, ?_⟩)
      cases hr : w.Run (routerAtRun w (facadeOf c)) cfg.ServerAddress with
      | serves => exact Or.inl ⟨rfl, run_serving w cfg c h hc hr⟩
      | returns r =>
        cases r with
        | some err => exact Or.inr (Or.inl ⟨err, rfl, run_serve_error w cfg c err h hc hr⟩)
        | none => exact Or.inr (Or.inr ⟨rfl, run_serve_nil w cfg c h hc hr⟩)

/-- The calls of an execution in which the connection was opened are those up
to `router.Run`, followed by at most one call, a fatal log or the deferred
`Close`. -/
theorem run_connected (w : World) (cfg : Config) (c : Client)
    (h : w.LoadConfig configPath = Except.ok cfg)
    (hc : w.NewClient cfg.GRPCServerAddress = Except.ok c) :
    ∃ last, (run w).trace = callsToConfig ++ callsToRun w cfg c ++ last ∧
      (last = [] ∨ (∃ err, last = [fatalCall "Failed to start server: %v" err]) ∨
        last = [⟨Fn.Close, [Value.client c]⟩]) := by
  cases hr : w.Run (routerAtRun w (facadeOf c)) cfg.ServerAddress with
  | serves => exact ⟨[], by rw [run_serving w cfg c h hc hr]; simp, Or.inl rfl⟩
  | returns r =>
    cases r with
    | some err =>
      exact ⟨_, by rw [run_serve_error w cfg c err h hc hr], Or.inr (Or.inl ⟨err, rfl⟩)⟩
    | none => exact ⟨_, by rw [run_serve_nil w cfg c h hc hr], Or.inr (Or.inr rfl)⟩

/-- Every execution either stops before the connection is open, with one of two
short traces, or opens the connection and continues as `run_connected` says. -/
theorem run_shapes (w : World) :
    (∃ err, (run w).trace = callsToConfig ++ [fatalCall "Failed to load config: %v" err]) ∨
    (∃ (cfg : Config) (err : GoError), (run w).trace = callsToConfig ++
      [⟨Fn.NewClient, [Value.str cfg.GRPCServerAddress]⟩,
        fatalCall "Failed to create gRPC client: %v" err]) ∨
    (∃ cfg c last, w.LoadConfig configPath = Except.ok cfg ∧
      w.NewClient cfg.GRPCServerAddress = Except.ok c ∧
      (run w).trace = callsToConfig ++ callsToRun w cfg c ++ last ∧
      (last = [] ∨ (∃ err, last = [fatalCall "Failed to start server: %v" err]) ∨
        last = [⟨Fn.Close, [Value.client c]⟩])) := by
  cases h : w.LoadConfig configPath with
  | error err => exact Or.inl ⟨err, by rw [run_config_error w err h]⟩
  | ok cfg =>
    cases hc : w.NewClient cfg.GRPCServerAddress with
    | error err => exact Or.inr (Or.inl ⟨cfg, err, by rw [run_client_error w cfg err h hc]⟩)
    | ok c =>
      obtain ⟨last, h1, h2⟩ := run_connected w cfg c h hc
      exact Or.inr (Or.inr ⟨cfg, c, last, rfl, hc, h1, h2⟩)

/-- What `precededBy` computes: each call that satisfies `q` has a call that
satisfies `p` somewhere before it. -/
theorem precededBy_sound (p q : Call → Bool) (t : List Call) (h : precededBy p q t = true) :
    ∀ pre c post, t = pre ++ c :: post → q c = true → ∃ d ∈ pre, p d = true := by
  induction t with
  | nil => intro pre c post e; simp at e
  | cons a t ih =>
    intro pre c post e hq
    cases pre with
    | nil =>
      simp only [List.nil_append, List.cons.injEq] at e
      obtain ⟨rfl, -⟩ := e
      simp [precededBy, hq] at h
    | cons b pre =>
      simp only [List.cons_append, List.cons.injEq] at e
      obtain ⟨rfl, rfl⟩ := e
      by_cases haq : q a = true
      · simp [precededBy, haq] at h
      · by_cases hap : p a = true
        · exact ⟨a, List.mem_cons_self _ _, hap⟩
        · simp only [precededBy, haq, hap, if_false] at h
          obtain ⟨d, hd, hdp⟩ := ih h pre c post rfl hq
          exact ⟨d, List.mem_cons_of_mem _ hd, hdp⟩

/-- The calls to `fn` in a trace are the calls of the trace whose callee is
`fn`. -/
theorem mem_callsTo (fn : Fn) (t : List Call) (c : Call) :
    c ∈ callsTo fn t ↔ c ∈ t ∧ c.fn = fn := by
  simp [callsTo, List.mem_filter]

/-- The calls to `fn` in the executions that stop before the connection is
open: there is none, unless `fn` is one of the collaborators called by
then. -/
theorem callsTo_early (w : World) (fn : Fn)
    (h1 : fn ≠ Fn.WithFields) (h2 : fn ≠ Fn.LoadConfig) (h3 : fn ≠ Fn.NewClient)
    (h4 : fn ≠ Fn.Fatalf)
    (hw : (∃ err, (run w).trace = callsToConfig ++ [fatalCall "Failed to load config: %v" err]) ∨
      (∃ (cfg : Config) (err : GoError), (run w).trace = callsToConfig ++
        [⟨Fn.NewClient, [Value.str cfg.GRPCServerAddress]⟩,
          fatalCall "Failed to create gRPC client: %v" err])) :
    callsTo fn (run w).trace = [] := by
  rcases hw with ⟨err, hrun⟩ | ⟨cfg, err, hrun⟩ <;>
  · rw [hrun]
    simp [callsTo, callsToConfig, fatalCall, Ne.symm h1, Ne.symm h2, Ne.symm h3, Ne.symm h4]

/-- C1: the HTTP server is started (`handlers.SetupRoutes` or `router.Run` is
called) only in executions where `config.LoadConfig` and `grpc.NewClient` both
returned without error; when `grpc.NewClient` returns an error the process ends
with the fatal log call, exit status 1, and neither `handlers.SetupRoutes` nor
`router.Run` is called. -/
theorem server_started_only_with_config_and_connection (w : World) :
    ((∃ c ∈ (run w).trace, c.fn = Fn.SetupRoutes ∨ c.fn = Fn.Run) →
      ∃ cfg client, w.LoadConfig configPath = Except.ok cfg ∧
        w.NewClient cfg.GRPCServerAddress = Except.ok client) ∧
    (∀ cfg err, w.LoadConfig configPath = Except.ok cfg →
      w.NewClient cfg.GRPCServerAddress = Except.error err →
      (run w).exitCode = some 1 ∧
      (run w).trace.getLast? = some (fatalCall "Failed to create gRPC client: %v" err) ∧
      callsTo Fn.SetupRoutes (run w).trace = [] ∧
      callsTo Fn.Run (run w).trace = []) := by
  constructor
  · rintro ⟨c, hc, hfn⟩
    rcases run_shapes w with hw | hw | ⟨cfg, c0, last, h1, h2, -, -⟩
    · rcases hfn with hfn | hfn
      · have hmem := (mem_callsTo _ _ c).2 ⟨hc, hfn⟩
        rw [callsTo_early w _ (by decide) (by decide) (by decide) (by decide) (Or.inl hw)] at hmem
        simp at hmem
      · have hmem := (mem_callsTo _ _ c).2 ⟨hc, hfn⟩
        rw [callsTo_early w _ (by decide) (by decide) (by decide) (by decide) (Or.inl hw)] at hmem
        simp at hmem
    · rcases hfn with hfn | hfn
      · have hmem := (mem_callsTo _ _ c).2 ⟨hc, hfn⟩
        rw [callsTo_early w _ (by decide) (by decide) (by decide) (by decide) (Or.inr hw)] at hmem
        simp at hmem
      · have hmem := (mem_callsTo _ _ c).2 ⟨hc, hfn⟩
        rw [callsTo_early w _ (by decide) (by decide) (by decide) (by decide) (Or.inr hw)] at hmem
        simp at hmem
    · exact ⟨cfg, c0, h1, h2⟩
  · intro cfg err h hc
    rw [run_client_error w cfg err h hc]
    simp [callsTo, callsToConfig, fatalCall]

/-- C1 at two worlds: where the router is run, the configuration and the
connection were obtained; where the backend is unreachable, the process exits
with status 1 and the router is never run. -/
theorem server_started_only_with_config_and_connection_witness :
    (∃ cfg client, servingWorld.LoadConfig configPath = Except.ok cfg ∧
      servingWorld.NewClient cfg.GRPCServerAddress = Except.ok client) ∧
    (run noBackendWorld).exitCode = some 1 ∧ callsTo Fn.Run (run noBackendWorld).trace = [] :=
  have h := (server_started_only_with_config_and_connection noBackendWorld).2
    sampleConfig ⟨"connection refused"⟩ rfl rfl
  ⟨(server_started_only_with_config_and_connection servingWorld).1
      ⟨⟨Fn.Run, [Value.engine (routerAtRun servingWorld (facadeOf sampleClient)),
          Value.str ":8080"]⟩,
        by
          rw [run_serving servingWorld sampleConfig sampleClient rfl rfl rfl]
          simp [callsToConfig, callsToRun, sampleConfig],
        Or.inr rfl⟩,
   h.1, h.2.2.2⟩

/-- Among the executions modelled here (a panic is not among them), the
deferred `Close` is called exactly in those where `main` returns, which are
those that end with exit status 0. -/
theorem close_runs_only_when_main_returns (w : World) :
    callsTo Fn.Close (run w).trace ≠ [] ↔ (run w).exitCode = some 0 := by
  rcases run_cases w with ⟨err, _, hrun⟩ | ⟨cfg, err, _, _, hrun⟩ |
    ⟨cfg, c0, _, _, ⟨_, hrun⟩ | ⟨err, _, hrun⟩ | ⟨_, hrun⟩⟩ <;>
  · rw [hrun]
    simp [callsTo, callsToConfig, callsToRun, fatalCall]

/-- C2, at the execution where `router.Run` returns an error: the connection
was opened once, the process ends through the fatal log call with exit status
1, and `Close` was never called on the handle. -/
theorem close_skipped_when_run_fails :
    (sampleWorld false).NewClient "localhost:50051" = Except.ok sampleClient ∧
    callsTo Fn.NewClient (run (sampleWorld false)).trace =
      [⟨Fn.NewClient, [Value.str "localhost:50051"]⟩] ∧
    (run (sampleWorld false)).exitCode = some 1 ∧
    (run (sampleWorld false)).trace.getLast? =
      some (fatalCall "Failed to start server: %v" addressInUse) ∧
    (callsTo Fn.Close (run (sampleWorld false)).trace).length = 0 := by
  have hrun := run_serve_error (sampleWorld false) sampleConfig sampleClient addressInUse
    rfl rfl rfl
  rw [hrun]
  refine ⟨rfl, ?_, rfl, ?_, ?_⟩ <;>
    simp [callsTo, callsToConfig, callsToRun, fatalCall, sampleConfig]

/-- C3: in every execution `grpc.NewClient` is called at most once, and every
call to `handlers.SetupRoutes` (routes registered) and to `router.Run`
(requests served) comes after the call to `grpc.NewClient`. -/
theorem connection_opened_at_most_once_and_first (w : World) :
    (callsTo Fn.NewClient (run w).trace).length ≤ 1 ∧
    (∀ pre c post, (run w).trace = pre ++ c :: post →
      (c.fn = Fn.SetupRoutes ∨ c.fn = Fn.Run) → ∃ d ∈ pre, d.fn = Fn.NewClient) := by
  have key : (callsTo Fn.NewClient (run w).trace).length ≤ 1 ∧
      precededBy (isCallTo Fn.NewClient) (isCallTo Fn.SetupRoutes) (run w).trace = true ∧
      precededBy (isCallTo Fn.NewClient) (isCallTo Fn.Run) (run w).trace = true := by
    rcases run_shapes w with ⟨err, hrun⟩ | ⟨cfg, err, hrun⟩ | ⟨cfg, c0, last, -, -, hrun, hlast⟩
    · rw [hrun]
      simp [callsTo, callsToConfig, fatalCall, precededBy, isCallTo]
    · rw [hrun]
      simp [callsTo, callsToConfig, fatalCall, precededBy, isCallTo]
    · rw [hrun]
      rcases hlast with rfl | ⟨err, rfl⟩ | rfl <;>
        simp [callsTo, callsToConfig, callsToRun, fatalCall, precededBy, isCallTo]
  refine ⟨key.1, ?_⟩
  intro pre c post e hfn
  rcases hfn with hfn | hfn
  · obtain ⟨d, hd, hp⟩ := precededBy_sound _ _ _ key.2.1 pre c post e (by simp [isCallTo, hfn])
    exact ⟨d, hd, by simpa [isCallTo] using hp⟩
  · obtain ⟨d, hd, hp⟩ := precededBy_sound _ _ _ key.2.2 pre c post e (by simp [isCallTo, hfn])
    exact ⟨d, hd, by simpa [isCallTo] using hp⟩

/-- C3 at the execution that serves: the call `handlers.SetupRoutes` has the
call that opens the connection before it. -/
theorem connection_opened_at_most_once_and_first_witness :
    ∃ d ∈ callsToConfig ++ (callsToRun servingWorld sampleConfig sampleClient).take 9,
      d.fn = Fn.NewClient :=
  (connection_opened_at_most_once_and_first servingWorld).2 _
    ⟨Fn.SetupRoutes, [Value.engine routerAtSetup, Value.facade (facadeOf sampleClient),
      Value.logger mainLogger]⟩
    _ (by
      rw [run_serving servingWorld sampleConfig sampleClient rfl rfl rfl]
      simp only [callsToRun, List.take, List.append_assoc, List.cons_append, List.nil_append]
      rfl) (Or.inl rfl)

/-! ## What `main` hands to its collaborators -/

/-- C4: whenever `grpc.NewGrpcAdapter` is called, its arguments are the
position client and the order client, in that order, of the handle that the
one call to `grpc.NewClient` returned; the adapter is built once and no other
connection is opened. -/
theorem adapter_built_from_the_one_connection (w : World) (c : Call)
    (hc : c ∈ (run w).trace) (hfn : c.fn = Fn.NewGrpcAdapter) :
    ∃ cfg client, w.LoadConfig configPath = Except.ok cfg ∧
      w.NewClient cfg.GRPCServerAddress = Except.ok client ∧
      c.args = [Value.serviceClient client.FnoPositionServiceClient,
                Value.serviceClient client.OrderDetailsServiceClient] ∧
      callsTo Fn.NewClient (run w).trace = [⟨Fn.NewClient, [Value.str cfg.GRPCServerAddress]⟩] ∧
      callsTo Fn.NewGrpcAdapter (run w).trace = [c] := by
  have hmem := (mem_callsTo _ _ c).2 ⟨hc, hfn⟩
  rcases run_shapes w with hw | hw | ⟨cfg, c0, last, h1, h2, hrun, hlast⟩
  · rw [callsTo_early w _ (by decide) (by decide) (by decide) (by decide) (Or.inl hw)] at hmem
    simp at hmem
  · rw [callsTo_early w _ (by decide) (by decide) (by decide) (by decide) (Or.inr hw)] at hmem
    simp at hmem
  · refine ⟨cfg, c0, h1, h2, ?_⟩
    have hcalls : callsTo Fn.NewGrpcAdapter (run w).trace =
        [⟨Fn.NewGrpcAdapter, [Value.serviceClient c0.FnoPositionServiceClient,
          Value.serviceClient c0.OrderDetailsServiceClient]⟩] := by
      rw [hrun]
      rcases hlast with rfl | ⟨err, rfl⟩ | rfl <;>
        simp [callsTo, callsToConfig, callsToRun, fatalCall]
    rw [hcalls] at hmem ⊢
    have hcases := List.mem_singleton.1 hmem
    subst hcases
    refine ⟨rfl, ?_, rfl⟩
    rw [hrun]
    rcases hlast with rfl | ⟨err, rfl⟩ | rfl <;>
      simp [callsTo, callsToConfig, callsToRun, fatalCall]

/-- C4 at the execution where `router.Run` returns nil. -/
theorem adapter_built_from_the_one_connection_witness :
    ∃ cfg client, (sampleWorld true).LoadConfig configPath = Except.ok cfg ∧
      (sampleWorld true).NewClient cfg.GRPCServerAddress = Except.ok client ∧
      [Value.serviceClient ⟨10⟩, Value.serviceClient ⟨20⟩] =
        [Value.serviceClient client.FnoPositionServiceClient,
         Value.serviceClient client.OrderDetailsServiceClient] ∧
      callsTo Fn.NewClient (run (sampleWorld true)).trace =
        [⟨Fn.NewClient, [Value.str cfg.GRPCServerAddress]⟩] ∧
      callsTo Fn.NewGrpcAdapter (run (sampleWorld true)).trace =
        [⟨Fn.NewGrpcAdapter, [Value.serviceClient ⟨10⟩, Value.serviceClient ⟨20⟩]⟩] :=
  adapter_built_from_the_one_connection (sampleWorld true)
    ⟨Fn.NewGrpcAdapter, [Value.serviceClient ⟨10⟩, Value.serviceClient ⟨20⟩]⟩
    (by
      rw [run_serve_nil (sampleWorld true) sampleConfig sampleClient rfl rfl rfl]
      simp [callsToConfig, callsToRun, sampleClient])
    rfl

/-- C5: whenever `handlers.SetupRoutes` is called, its arguments are the
router, the facade and the logger; the facade is the one `handlers.NewFacade`
built from the adapter, and the adapter is the one `grpc.NewGrpcAdapter` built
from the two clients of the connection handle.  No argument of
`handlers.SetupRoutes` is an adapter, a connection handle or a service
client. -/
theorem routes_receive_only_the_facade (w : World) (c : Call)
    (hc : c ∈ (run w).trace) (hfn : c.fn = Fn.SetupRoutes) :
    ∃ cfg client, w.LoadConfig configPath = Except.ok cfg ∧
      w.NewClient cfg.GRPCServerAddress = Except.ok client ∧
      c.args = [Value.engine routerAtSetup,
                Value.facade (Facade.NewFacade (GrpcAdapter.NewGrpcAdapter
                  client.FnoPositionServiceClient client.OrderDetailsServiceClient)),
                Value.logger mainLogger] ∧
      callsTo Fn.NewFacade (run w).trace =
        [⟨Fn.NewFacade, [Value.adapter (GrpcAdapter.NewGrpcAdapter
          client.FnoPositionServiceClient client.OrderDetailsServiceClient)]⟩] ∧
      callsTo Fn.NewGrpcAdapter (run w).trace =
        [⟨Fn.NewGrpcAdapter, [Value.serviceClient client.FnoPositionServiceClient,
          Value.serviceClient client.OrderDetailsServiceClient]⟩] ∧
      (∀ v ∈ c.args, (∀ a, v ≠ Value.adapter a) ∧ (∀ k, v ≠ Value.client k) ∧
        (∀ s, v ≠ Value.serviceClient s)) := by
  have hmem := (mem_callsTo _ _ c).2 ⟨hc, hfn⟩
  rcases run_shapes w with hw | hw | ⟨cfg, c0, last, h1, h2, hrun, hlast⟩
  · rw [callsTo_early w _ (by decide) (by decide) (by decide) (by decide) (Or.inl hw)] at hmem
    simp at hmem
  · rw [callsTo_early w _ (by decide) (by decide) (by decide) (by decide) (Or.inr hw)] at hmem
    simp at hmem
  · refine ⟨cfg, c0, h1, h2, ?_⟩
    have hcalls : callsTo Fn.SetupRoutes (run w).trace =
        [⟨Fn.SetupRoutes, [Value.engine routerAtSetup, Value.facade (facadeOf c0),
          Value.logger mainLogger]⟩] := by
      rw [hrun]
      rcases hlast with rfl | ⟨err, rfl⟩ | rfl <;>
        simp [callsTo, callsToConfig, callsToRun, fatalCall]
    rw [hcalls] at hmem
    have hcases := List.mem_singleton.1 hmem
    subst hcases
    rw [hrun]
    rcases hlast with rfl | ⟨err, rfl⟩ | rfl <;>
      simp [callsTo, callsToConfig, callsToRun, fatalCall, facadeOf]

/-- C5 at the execution where `router.Run` returns nil. -/
theorem routes_receive_only_the_facade_witness :
    ∃ cfg client, (sampleWorld true).LoadConfig configPath = Except.ok cfg ∧
      (sampleWorld true).NewClient cfg.GRPCServerAddress = Except.ok client ∧
      [Value.engine routerAtSetup,
       Value.facade (Facade.NewFacade (GrpcAdapter.NewGrpcAdapter ⟨10⟩ ⟨20⟩)),
       Value.logger mainLogger] =
        [Value.engine routerAtSetup,
         Value.facade (Facade.NewFacade (GrpcAdapter.NewGrpcAdapter
           client.FnoPositionServiceClient client.OrderDetailsServiceClient)),
         Value.logger mainLogger] ∧
      callsTo Fn.NewFacade (run (sampleWorld true)).trace =
        [⟨Fn.NewFacade, [Value.adapter (GrpcAdapter.NewGrpcAdapter
          client.FnoPositionServiceClient client.OrderDetailsServiceClient)]⟩] ∧
      callsTo Fn.NewGrpcAdapter (run (sampleWorld true)).trace =
        [⟨Fn.NewGrpcAdapter, [Value.serviceClient client.FnoPositionServiceClient,
          Value.serviceClient client.OrderDetailsServiceClient]⟩] ∧
      (∀ v ∈ [Value.engine routerAtSetup,
          Value.facade (Facade.NewFacade (GrpcAdapter.NewGrpcAdapter ⟨10⟩ ⟨20⟩)),
          Value.logger mainLogger],
        (∀ a, v ≠ Value.adapter a) ∧ (∀ k, v ≠ Value.client k) ∧
        (∀ s, v ≠ Value.serviceClient s)) :=
  routes_receive_only_the_facade (sampleWorld true)
    ⟨Fn.SetupRoutes, [Value.engine routerAtSetup,
      Value.facade (Facade.NewFacade (GrpcAdapter.NewGrpcAdapter ⟨10⟩ ⟨20⟩)),
      Value.logger mainLogger]⟩
    (by
      rw [run_serve_nil (sampleWorld true) sampleConfig sampleClient rfl rfl rfl]
      simp [callsToConfig, callsToRun, sampleClient, facadeOf])
    rfl

/-- The execution depends on the configuration through its two addresses
only. -/
theorem run_congr (w w2 : World) (cfg cfg2 : Config)
    (h : w.LoadConfig configPath = Except.ok cfg)
    (h2 : w2.LoadConfig configPath = Except.ok cfg2)
    (e1 : w2.NewClient = w.NewClient) (e2 : w2.SetupRoutes = w.SetupRoutes)
    (e3 : w2.Run = w.Run)
    (ea : cfg2.GRPCServerAddress = cfg.GRPCServerAddress)
    (eb : cfg2.ServerAddress = cfg.ServerAddress) : run w2 = run w := by
  have er : ∀ f, routerAtRun w2 f = routerAtRun w f := by
    intro f; simp [routerAtRun, e2]
  cases hc : w.NewClient cfg.GRPCServerAddress with
  | error err =>
    rw [run_client_error w cfg err h hc,
      run_client_error w2 cfg2 err h2 (by rw [e1, ea]; exact hc), ea]
  | ok c =>
    cases hr : w.Run (routerAtRun w (facadeOf c)) cfg.ServerAddress with
    | serves =>
      rw [run_serving w cfg c h hc hr,
        run_serving w2 cfg2 c h2 (by rw [e1, ea]; exact hc) (by rw [e3, er, eb]; exact hr)]
      simp [callsToRun, ea, eb, er]
    | returns r =>
      cases r with
      | some err =>
        rw [run_serve_error w cfg c err h hc hr,
          run_serve_error w2 cfg2 c err h2 (by rw [e1, ea]; exact hc)
            (by rw [e3, er, eb]; exact hr)]
        simp [callsToRun, ea, eb, er]
      | none =>
        rw [run_serve_nil w cfg c h hc hr,
          run_serve_nil w2 cfg2 c h2 (by rw [e1, ea]; exact hc)
            (by rw [e3, er, eb]; exact hr)]
        simp [callsToRun, ea, eb, er]

/-- C6: for the configuration `cfg` that `config.LoadConfig` returned, the one
call to `grpc.NewClient` receives `cfg.GRPCServerAddress`, the call to
`router.Run` (made once the connection is open) receives `cfg.ServerAddress`,
and a configuration with the same two addresses gives the same execution,
whatever its other settings. -/
theorem addresses_come_from_the_config (w : World) (cfg : Config)
    (h : w.LoadConfig configPath = Except.ok cfg) :
    callsTo Fn.NewClient (run w).trace = [⟨Fn.NewClient, [Value.str cfg.GRPCServerAddress]⟩] ∧
    (∀ client, w.NewClient cfg.GRPCServerAddress = Except.ok client →
      callsTo Fn.Run (run w).trace =
        [⟨Fn.Run, [Value.engine (routerAtRun w (facadeOf client)), Value.str cfg.ServerAddress]⟩]) ∧
    (∀ cfg2 : Config, cfg2.GRPCServerAddress = cfg.GRPCServerAddress →
      cfg2.ServerAddress = cfg.ServerAddress →
      run { w with LoadConfig := fun _ => Except.ok cfg2 } = run w) := by
  refine ⟨?_, ?_, ?_⟩
  · cases hc : w.NewClient cfg.GRPCServerAddress with
    | error err =>
      rw [run_client_error w cfg err h hc]
      simp [callsTo, callsToConfig, fatalCall]
    | ok c =>
      obtain ⟨last, hrun, hlast⟩ := run_connected w cfg c h hc
      rw [hrun]
      rcases hlast with rfl | ⟨err, rfl⟩ | rfl <;>
        simp [callsTo, callsToConfig, callsToRun, fatalCall]
  · intro c hc
    obtain ⟨last, hrun, hlast⟩ := run_connected w cfg c h hc
    rw [hrun]
    rcases hlast with rfl | ⟨err, rfl⟩ | rfl <;>
      simp [callsTo, callsToConfig, callsToRun, fatalCall]
  · intro cfg2 ea eb
    exact run_congr w _ cfg cfg2 h rfl rfl rfl rfl ea eb

/-- C6 at the sample configuration, whose two addresses differ. -/
theorem addresses_come_from_the_config_witness :
    callsTo Fn.NewClient (run servingWorld).trace =
      [⟨Fn.NewClient, [Value.str "localhost:50051"]⟩] ∧
    callsTo Fn.Run (run servingWorld).trace =
      [⟨Fn.Run, [Value.engine (routerAtRun servingWorld (facadeOf sampleClient)),
        Value.str ":8080"]⟩] ∧
    run { servingWorld with LoadConfig := fun _ => Except.ok verboseConfig } =
      run servingWorld :=
  have h := addresses_come_from_the_config servingWorld sampleConfig rfl
  ⟨h.1, h.2.1 sampleClient rfl, h.2.2 _ rfl rfl⟩

/-! ## The facade -/

/-- C7: `GetAccountSummary` returns an Aggregated Response exactly when the
position call and the order call both succeed, and the response then holds both
result sets; when the position call fails the result is its error, and when
only the order call fails the result is the order call's error. -/
theorem account_summary_both_or_neither (a : ServiceAdapter) (request : String) :
    ((∃ r, GetAccountSummary a request = Except.ok r) ↔
      (∃ ps os, a.GetPositions request = Except.ok ps ∧
        a.GetOrderDetails request = Except.ok os)) ∧
    (∀ ps os, a.GetPositions request = Except.ok ps → a.GetOrderDetails request = Except.ok os →
      GetAccountSummary a request = Except.ok { positions := ps, orders := os }) ∧
    (∀ e, a.GetPositions request = Except.error e →
      GetAccountSummary a request = Except.error e) ∧
    (∀ ps e, a.GetPositions request = Except.ok ps →
      a.GetOrderDetails request = Except.error e →
      GetAccountSummary a request = Except.error e) := by
  unfold GetAccountSummary
  cases hp : a.GetPositions request <;> cases ho : a.GetOrderDetails request <;> simp

/-- C7 at the two scenarios of the spec for account `A1`: a position time-out
gives the Timeout error although the order call succeeded, and two successes
give both result sets. -/
theorem account_summary_both_or_neither_witness :
    GetAccountSummary (scenarioAdapter true) "A1" =
      Except.error ⟨BackendErrorKind.Timeout, none⟩ ∧
    GetAccountSummary (scenarioAdapter false) "A1" =
      Except.ok { positions := [⟨"X", 10⟩], orders := [⟨"O1", "FILLED"⟩] } :=
  ⟨(account_summary_both_or_neither (scenarioAdapter true) "A1").2.2.1 _ rfl,
   (account_summary_both_or_neither (scenarioAdapter false) "A1").2.1 _ _ rfl rfl⟩

/-- C8: each of the five Backend Error kinds has its one HTTP status
(InvalidArgument 400, NotFound 404, Timeout 504, Unavailable 503, Internal
500), no two kinds share a status, every backend failure is translated to one
of the five kinds, and the error of every failed Facade operation carries one
of the five kinds, hence one status of the table. -/
theorem error_kind_status_mapping_total :
    httpStatus BackendErrorKind.InvalidArgument = 400 ∧
    httpStatus BackendErrorKind.NotFound = 404 ∧
    httpStatus BackendErrorKind.Timeout = 504 ∧
    httpStatus BackendErrorKind.Unavailable = 503 ∧
    httpStatus BackendErrorKind.Internal = 500 ∧
    Function.Injective httpStatus ∧
    (∀ f : RpcFailure, translate f ∈ [BackendErrorKind.InvalidArgument, BackendErrorKind.NotFound,
      BackendErrorKind.Timeout, BackendErrorKind.Unavailable, BackendErrorKind.Internal]) ∧
    (∀ (a : ServiceAdapter) (request : String) (e : BackendError),
      (GetPositionsForAccount a request = Except.error e ∨
        GetOrderDetailsForAccount a request = Except.error e ∨
        GetAccountSummary a request = Except.error e) →
      e.kind ∈ [BackendErrorKind.InvalidArgument, BackendErrorKind.NotFound,
        BackendErrorKind.Timeout, BackendErrorKind.Unavailable, BackendErrorKind.Internal] ∧
      httpStatus e.kind ∈ [400, 404, 504, 503, 500]) := by
  refine ⟨rfl, rfl, rfl, rfl, rfl, ?_, ?_, ?_⟩
  · intro x y h
    cases x <;> cases y <;> first | rfl | (simp [httpStatus] at h)
  · intro f
    cases f <;> simp [translate]
  · intro a request e _
    cases hk : e.kind <;> simp [httpStatus]

/-- C8 at the time-out scenario of the spec: the failed summary carries the kind
Timeout, status 504. -/
theorem error_kind_status_mapping_total_witness :
    (⟨BackendErrorKind.Timeout, none⟩ : BackendError).kind ∈
      [BackendErrorKind.InvalidArgument, BackendErrorKind.NotFound,
        BackendErrorKind.Timeout, BackendErrorKind.Unavailable, BackendErrorKind.Internal] ∧
    httpStatus (⟨BackendErrorKind.Timeout, none⟩ : BackendError).kind ∈ [400, 404, 504, 503, 500] :=
  error_kind_status_mapping_total.2.2.2.2.2.2.2 (scenarioAdapter true) "A1"
    ⟨BackendErrorKind.Timeout, none⟩ (Or.inr (Or.inr rfl))

/-! ## The security-header middleware -/

/-- The line of every request: the fixed texts of the format around the six
rendered operands; the latency stands between a colon and a comma, without
quotes. -/
theorem accessLogFormatter_shape (param : LogFormatterParams) :
    (accessLogFormatter param).toList =
      "\x7b\"time\":\"".toList ++ param.TimeStamp.FormatRFC3339 ++
      "\",\"method\":\"".toList ++ param.Method.toList ++
      "\",\"path\":\"".toList ++ param.Path.toList ++
      "\",\"status\":".toList ++ formatOperand 'd' (Operand.int param.StatusCode) ++
      ",\"latency\":".toList ++ Duration.String param.Latency ++
      ",\"client_ip\":\"".toList ++ param.ClientIP.toList ++ "\"\x7d\n".toList := by
  simp [accessLogFormatter, accessLogFormat, Sprintf, formatOperand]

/-- C10, at a plain request served in 1.5 ms: the formatter writes the latency
without quotes, so the line it returns is not a well-formed JSON object; the
same line with the latency between quotes is one. -/
theorem access_log_line_not_json :
    accessLogFormatter sampleParams =
      "\x7b\"time\":\"2024-05-17T09:30:00Z\",\"method\":\"GET\",\"path\":\"/positions\",\"status\":200,\"latency\":1.5ms,\"client_ip\":\"127.0.0.1\"\x7d\n" ∧
    isAccessLogLine (accessLogFormatter sampleParams) = false ∧
    isAccessLogLine quotedLatencyLine = true := by
  refine ⟨by decide, by decide, by decide⟩

end Webserver
